import Mathlib

/-!
Shallow embedding of the SHT3x sensor driver (src/src/SHT3x.c and its header
src/src/include/SHT3x.h).

Modelling conventions:
* C `uint8_t` / `uint16_t` values are `Nat`, with an explicit `% 65536` at the
  one place the code stores a wider expression into a `uint16_t` field.
* Platform capability return codes (`int8_t`) are `Int`; `0` means success and
  `-3` is the distinguished bus-NACK code, exactly as in the header contract.
* The platform adapter's function pointers live in the handler structure, as in
  the C `SHT3x_Handler_t`.  A pointer that may be NULL is an `Option`; calling
  a NULL required capability is undefined behaviour in C and the embedding
  returns `none` for it.  `PlatformInit`/`PlatformDeInit` take no arguments, so
  they are modelled by the status they return (`Option Int`, `none` = NULL).
* The receive capability may be stateful in C (the same pointer is invoked
  repeatedly); it is modelled as a deterministic function that also takes the
  index of the call within the current operation and the current contents of
  the caller's buffer (the C function receives a pointer into that buffer and
  may rewrite it, even when it reports a failure status).
* Every invocation of a send/receive/delay/CRC capability is recorded in an
  event trace so that theorems can speak about what was put on the bus, how
  many attempts were made and in which order checks happened.
-/

/-- Result codes of the library (`SHT3x_Result_t`). -/
inductive SHT3x_Result where
  | SHT3x_OK
  | SHT3x_FAIL
  | SHT3x_INVALID_PARAM
  | SHT3x_CRC_ERROR
  | SHT3x_NO_DATA
  deriving Repr, DecidableEq

export SHT3x_Result (SHT3x_OK SHT3x_FAIL SHT3x_INVALID_PARAM SHT3x_CRC_ERROR
  SHT3x_NO_DATA)

/-- One invocation of a platform capability, as observed at the adapter
boundary. -/
inductive SHT3x_Event where
  | evSend (addr : Nat) (data : List Nat)
  | evReceive (addr : Nat) (len : Nat)
  | evDelay (ms : Nat)
  | evCrc (data : Nat) (crcByte : Nat)
  deriving Repr, DecidableEq

export SHT3x_Event (evSend evReceive evDelay evCrc)

/- `SHT3x_Mode_t`, `SHT3x_Speed_t` and `SHT3x_Repeatability_t` are C enums;
an out-of-range integer is representable in them, and the driver switches on
them with `default` branches, so they are modelled as plain naturals with the
enum constants as named values. -/

def SHT3x_MODE_SINGLESHOT : Nat := 0
def SHT3x_MODE_PERIODIC : Nat := 1
def SHT3x_MODE_ART : Nat := 2

def SHT3x_SPEED_05MPS : Nat := 0
def SHT3x_SPEED_1MPS : Nat := 1
def SHT3x_SPEED_2MPS : Nat := 2
def SHT3x_SPEED_4MPS : Nat := 3
def SHT3x_SPEED_10MPS : Nat := 4

def SHT3x_REPEATABILITY_LOW : Nat := 0
def SHT3x_REPEATABILITY_MEDIUM : Nat := 1
def SHT3x_REPEATABILITY_HIGH : Nat := 2

/- Wire command constants of SHT3x.c. -/

def SHT3X_I2C_ADDRESS_A : Nat := 0x44
def SHT3X_I2C_ADDRESS_B : Nat := 0x45

def SHT3X_COMMAND_SINGLESHOT_DISABLE_MSB : Nat := 0x24
def SHT3X_COMMAND_SINGLESHOT_DISABLE_HIGH_LSB : Nat := 0x00
def SHT3X_COMMAND_SINGLESHOT_DISABLE_MEDIUM_LSB : Nat := 0x0B
def SHT3X_COMMAND_SINGLESHOT_DISABLE_LOW_LSB : Nat := 0x16

def SHT3X_COMMAND_ART_MSB : Nat := 0x2B
def SHT3X_COMMAND_ART_LSB : Nat := 0x32

def SHT3X_COMMAND_FETCH_DATA_MSB : Nat := 0xE0
def SHT3X_COMMAND_FETCH_DATA_LSB : Nat := 0x00

def SHT3X_COMMAND_STOP_PERIODIC_MSB : Nat := 0x30
def SHT3X_COMMAND_STOP_PERIODIC_LSB : Nat := 0x93

def SHT3X_COMMAND_SOFT_RESET_MSB : Nat := 0x30
def SHT3X_COMMAND_SOFT_RESET_LSB : Nat := 0xA2

def SHT3X_COMMAND_STATUS_READ_MSB : Nat := 0xF3
def SHT3X_COMMAND_STATUS_READ_LSB : Nat := 0x2D

/-- The device handle (`SHT3x_Handler_t`): operating state plus the platform
capability bindings.  `PlatformReceive` additionally takes the index of the
call within the current operation (first argument) and the current buffer
contents (third argument), returning the status and the new buffer contents. -/
structure SHT3x_Handler where
  AddressI2C : Nat
  Mode : Nat
  Repeatability : Nat
  Speed : Nat
  PlatformInit : Option Int
  PlatformDeInit : Option Int
  PlatformSend : Option (Nat → List Nat → Int)
  PlatformReceive : Option (Nat → Nat → List Nat → Nat → Int × List Nat)
  PlatformDelay : Option (Nat → Int)
  PlatformCRC : Option (Nat → Nat → Int)

/-- The sample (`SHT3x_Sample_t`).  The C `float` fields are modelled by exact
rationals; the transfer functions of the claim are linear, so every stated
value is exactly representable. -/
structure SHT3x_Sample where
  TempRaw : Nat
  HumRaw : Nat
  TempCelsius : ℚ
  TempFahrenheit : ℚ
  HumidityPercent : ℚ
  deriving Repr, DecidableEq

/-- `SHT3x_ConvSample` (SHT3x.c, lines 132-142): pure conversion of the raw
counts into Celsius, Fahrenheit and relative humidity. -/
def SHT3x_ConvSample (Sample : SHT3x_Sample) : SHT3x_Sample :=
  let TempBuff : ℚ := (Sample.TempRaw : ℚ) / 65535
  { Sample with
    HumidityPercent := ((Sample.HumRaw : ℚ) / 65535) * 100
    TempCelsius := (TempBuff * 175) - 45
    TempFahrenheit := (TempBuff * 315) - 49 }

/-- `SHT3x_SetAddressI2C` (SHT3x.c, lines 484-497): maps the selector (or the
literal address, or its left-shifted bus form) to one of the two fixed
addresses; any other value leaves the stored address unchanged.  Always
returns OK and touches no platform capability. -/
def SHT3x_SetAddressI2C (Handler : SHT3x_Handler) (Address : Nat) :
    SHT3x_Result × SHT3x_Handler :=
  if Address = 0 ∨ Address = SHT3X_I2C_ADDRESS_A ∨
      Address = SHT3X_I2C_ADDRESS_A <<< 1 then
    (SHT3x_OK, { Handler with AddressI2C := SHT3X_I2C_ADDRESS_A })
  else if Address = 1 ∨ Address = SHT3X_I2C_ADDRESS_B ∨
      Address = SHT3X_I2C_ADDRESS_B <<< 1 then
    (SHT3x_OK, { Handler with AddressI2C := SHT3X_I2C_ADDRESS_B })
  else
    (SHT3x_OK, Handler)

/-- `SHT3x_SetModeSingleShot` (SHT3x.c, lines 171-186).  Note: the C code
performs no validation of `Repeatability`; it sends the stop-periodic command
and, on send success, stores whatever repeatability value it was given. -/
def SHT3x_SetModeSingleShot (Handler : SHT3x_Handler) (Repeatability : Nat) :
    Option (SHT3x_Result × SHT3x_Handler × List SHT3x_Event) :=
  let cmd := [SHT3X_COMMAND_STOP_PERIODIC_MSB, SHT3X_COMMAND_STOP_PERIODIC_LSB]
  match Handler.PlatformSend with
  | none => none
  | some sendF =>
    if sendF Handler.AddressI2C cmd ≠ 0 then
      some (SHT3x_FAIL, Handler, [evSend Handler.AddressI2C cmd])
    else
      some (SHT3x_OK,
        { Handler with
          Mode := SHT3x_MODE_SINGLESHOT
          Repeatability := Repeatability },
        [evSend Handler.AddressI2C cmd])

/-- The `ComandPeriodicMSB` array of `SHT3x_SetModePeriodic` (SHT3x.c, lines
207-214), indexed by speed. -/
def ComandPeriodicMSB : List Nat := [0x20, 0x21, 0x22, 0x23, 0x27]

/-- The `ComandPeriodicLSB` array of `SHT3x_SetModePeriodic` as filled by the
switch on `Speed` (SHT3x.c, lines 216-276), indexed by repeatability
(LOW, MEDIUM, HIGH); `none` is the `default` branch (invalid speed). -/
def ComandPeriodicLSB (Speed : Nat) : Option (List Nat) :=
  if Speed = SHT3x_SPEED_05MPS then some [0x2F, 0x24, 0x32]
  else if Speed = SHT3x_SPEED_1MPS then some [0x2D, 0x26, 0x30]
  else if Speed = SHT3x_SPEED_2MPS then some [0x2B, 0x20, 0x36]
  else if Speed = SHT3x_SPEED_4MPS then some [0x29, 0x22, 0x34]
  else if Speed = SHT3x_SPEED_10MPS then some [0x2A, 0x21, 0x37]
  else none

/-- `SHT3x_SetModePeriodic` (SHT3x.c, lines 201-289).  An invalid `Speed`
takes the switch's `default` branch and returns INVALID_PARAM.  After the
switch the C code indexes the 3-entry `ComandPeriodicLSB` array with the raw
`Repeatability` argument with no bounds check: for `Repeatability ≥ 3` that is
an out-of-bounds read (undefined behaviour), modelled as `none`. -/
def SHT3x_SetModePeriodic (Handler : SHT3x_Handler)
    (Speed Repeatability : Nat) :
    Option (SHT3x_Result × SHT3x_Handler × List SHT3x_Event) :=
  match ComandPeriodicLSB Speed with
  | none => some (SHT3x_INVALID_PARAM, Handler, [])
  | some lsbs =>
    match lsbs.get? Repeatability with
    | none => none
    | some lsb =>
      let cmd := [ComandPeriodicMSB.getD Speed 0, lsb]
      match Handler.PlatformSend with
      | none => none
      | some sendF =>
        if sendF Handler.AddressI2C cmd ≠ 0 then
          some (SHT3x_FAIL, Handler, [evSend Handler.AddressI2C cmd])
        else
          some (SHT3x_OK,
            { Handler with
              Mode := SHT3x_MODE_PERIODIC
              Speed := Speed
              Repeatability := Repeatability },
            [evSend Handler.AddressI2C cmd])

/-- `SHT3x_SetModeART` (SHT3x.c, lines 299-313). -/
def SHT3x_SetModeART (Handler : SHT3x_Handler) :
    Option (SHT3x_Result × SHT3x_Handler × List SHT3x_Event) :=
  let cmd := [SHT3X_COMMAND_ART_MSB, SHT3X_COMMAND_ART_LSB]
  match Handler.PlatformSend with
  | none => none
  | some sendF =>
    if sendF Handler.AddressI2C cmd ≠ 0 then
      some (SHT3x_FAIL, Handler, [evSend Handler.AddressI2C cmd])
    else
      some (SHT3x_OK, { Handler with Mode := SHT3x_MODE_ART },
        [evSend Handler.AddressI2C cmd])

/-- The switch on `Handler->Repeatability` in the single-shot branch of
`SHT3x_ReadSample` (SHT3x.c, lines 338-355), giving the LSB of the
clock-stretching-disabled single-shot command; `none` is the `default`
branch (INVALID_PARAM). -/
def singleShotDisableLSB (Repeatability : Nat) : Option Nat :=
  if Repeatability = SHT3x_REPEATABILITY_LOW then
    some SHT3X_COMMAND_SINGLESHOT_DISABLE_LOW_LSB
  else if Repeatability = SHT3x_REPEATABILITY_MEDIUM then
    some SHT3X_COMMAND_SINGLESHOT_DISABLE_MEDIUM_LSB
  else if Repeatability = SHT3x_REPEATABILITY_HIGH then
    some SHT3X_COMMAND_SINGLESHOT_DISABLE_HIGH_LSB
  else
    none

/-- The single-shot receive/retry loop of `SHT3x_ReadSample` (SHT3x.c, lines
359-365): up to `fuel` (= 20) attempts to receive 6 bytes, stopping at the
first attempt whose status is 0; after every failed attempt the code calls
`PlatformDelay(1)` (also after the last one).  `idx` numbers the receive
invocations within this operation.  The buffer is handed to every attempt
and replaced by whatever the attempt wrote, whether or not it succeeded,
exactly as the C code hands the same `Buffer` pointer to every call.
Returns the final buffer contents and the event trace; `none` models a NULL
receive or delay capability being invoked (undefined behaviour in C). -/
def SHT3x_ReceiveLoop (Handler : SHT3x_Handler) :
    Nat → Nat → List Nat → Option (List Nat × List SHT3x_Event)
  | 0, _, buf => some (buf, [])
  | fuel + 1, idx, buf =>
    match Handler.PlatformReceive with
    | none => none
    | some recvF =>
      let r := recvF idx Handler.AddressI2C buf 6
      if r.1 = 0 then
        some (r.2, [evReceive Handler.AddressI2C 6])
      else
        match Handler.PlatformDelay with
        | none => none
        | some _ =>
          match SHT3x_ReceiveLoop Handler fuel (idx + 1) r.2 with
          | none => none
          | some (b, tr) =>
            some (b, evReceive Handler.AddressI2C 6 :: evDelay 1 :: tr)

/-- The common tail of `SHT3x_ReadSample` (SHT3x.c, lines 386-397), reached
by both branches: decode the raw counts from the 6-byte buffer into the
sample (a `uint16_t` store, hence the `% 65536`), CRC-check the temperature
word first and the humidity word second, short-circuiting to CRC_ERROR at
the first mismatch, and only then fill in the derived fields. -/
def SHT3x_ReadSampleTail (Handler : SHT3x_Handler) (Sample : SHT3x_Sample)
    (buf : List Nat) (tr : List SHT3x_Event) :
    Option (SHT3x_Result × SHT3x_Sample × List SHT3x_Event) :=
  let s1 := { Sample with
      TempRaw := ((buf.getD 0 0 <<< 8) ||| buf.getD 1 0) % 65536
      HumRaw := ((buf.getD 3 0 <<< 8) ||| buf.getD 4 0) % 65536 }
  match Handler.PlatformCRC with
  | none => none
  | some crcF =>
    let tr1 := tr ++ [evCrc s1.TempRaw (buf.getD 2 0)]
    if crcF s1.TempRaw (buf.getD 2 0) ≠ 0 then
      some (SHT3x_CRC_ERROR, s1, tr1)
    else
      let tr2 := tr1 ++ [evCrc s1.HumRaw (buf.getD 5 0)]
      if crcF s1.HumRaw (buf.getD 5 0) ≠ 0 then
        some (SHT3x_CRC_ERROR, s1, tr2)
      else
        some (SHT3x_OK, SHT3x_ConvSample s1, tr2)

/-- `SHT3x_ReadSample` (SHT3x.c, lines 328-398).  The local `Buffer` starts
zero-initialised.  Single-shot mode: validate the stored repeatability
(returning INVALID_PARAM from the switch's `default` before any capability is
touched), send the single-shot command, run the 20-attempt receive loop, and
fail if both CRC positions of the buffer are zero.  Any other mode: send the
fetch-data command, make exactly one receive attempt, mapping status -3 to
NO_DATA and any other nonzero status to FAIL.  Both branches fall through to
the common decode/CRC tail. -/
def SHT3x_ReadSample (Handler : SHT3x_Handler) (Sample : SHT3x_Sample) :
    Option (SHT3x_Result × SHT3x_Sample × List SHT3x_Event) :=
  let Buffer : List Nat := [0, 0, 0, 0, 0, 0]
  if Handler.Mode = SHT3x_MODE_SINGLESHOT then
    match singleShotDisableLSB Handler.Repeatability with
    | none => some (SHT3x_INVALID_PARAM, Sample, [])
    | some lsb =>
      let cmd := [SHT3X_COMMAND_SINGLESHOT_DISABLE_MSB, lsb]
      match Handler.PlatformSend with
      | none => none
      | some sendF =>
        if sendF Handler.AddressI2C cmd ≠ 0 then
          some (SHT3x_FAIL, Sample, [evSend Handler.AddressI2C cmd])
        else
          match SHT3x_ReceiveLoop Handler 20 0 Buffer with
          | none => none
          | some (buf, tr) =>
            let trace := evSend Handler.AddressI2C cmd :: tr
            if buf.getD 2 0 = 0 ∧ buf.getD 5 0 = 0 then
              some (SHT3x_FAIL, Sample, trace)
            else
              SHT3x_ReadSampleTail Handler Sample buf trace
  else
    let cmd := [SHT3X_COMMAND_FETCH_DATA_MSB, SHT3X_COMMAND_FETCH_DATA_LSB]
    match Handler.PlatformSend with
    | none => none
    | some sendF =>
      if sendF Handler.AddressI2C cmd ≠ 0 then
        some (SHT3x_FAIL, Sample, [evSend Handler.AddressI2C cmd])
      else
        match Handler.PlatformReceive with
        | none => none
        | some recvF =>
          let r := recvF 0 Handler.AddressI2C Buffer 6
          let trace := [evSend Handler.AddressI2C cmd,
                        evReceive Handler.AddressI2C 6]
          if r.1 = -3 then
            some (SHT3x_NO_DATA, Sample, trace)
          else if r.1 ≠ 0 then
            some (SHT3x_FAIL, Sample, trace)
          else
            SHT3x_ReadSampleTail Handler Sample r.2 trace

/-- `SHT3x_ReadStatus` (SHT3x.c, lines 509-528).  `Status` is the value
behind the caller's `uint16_t *Status`; it is returned unchanged on the FAIL
paths and is overwritten with the decoded big-endian word before the CRC
check, so a CRC_ERROR return still carries the decoded status.  The C local
`Buffer[3]` is uninitialised; the receive capability is expected to fill it,
and its pre-call contents are modelled as zeros. -/
def SHT3x_ReadStatus (Handler : SHT3x_Handler) (Status : Nat) :
    Option (SHT3x_Result × Nat × List SHT3x_Event) :=
  let cmd := [SHT3X_COMMAND_STATUS_READ_MSB, SHT3X_COMMAND_STATUS_READ_LSB]
  match Handler.PlatformSend with
  | none => none
  | some sendF =>
    if sendF Handler.AddressI2C cmd ≠ 0 then
      some (SHT3x_FAIL, Status, [evSend Handler.AddressI2C cmd])
    else
      match Handler.PlatformReceive with
      | none => none
      | some recvF =>
        let r := recvF 0 Handler.AddressI2C [0, 0, 0] 3
        let trace := [evSend Handler.AddressI2C cmd,
                      evReceive Handler.AddressI2C 3]
        if r.1 ≠ 0 then
          some (SHT3x_FAIL, Status, trace)
        else
          let buf := r.2
          let st := ((buf.getD 0 0 <<< 8) ||| buf.getD 1 0) % 65536
          match Handler.PlatformCRC with
          | none => none
          | some crcF =>
            let trace1 := trace ++ [evCrc st (buf.getD 2 0)]
            if crcF st (buf.getD 2 0) ≠ 0 then
              some (SHT3x_CRC_ERROR, st, trace1)
            else
              some (SHT3x_OK, st, trace1)

/-- The part of `SHT3x_Init` after the optional `PlatformInit` call (SHT3x.c,
lines 442-451): call `SHT3x_SetModeSingleShot(Handler, LOW)` discarding its
result, send the soft-reset command, and on send success delay 2 ms and
return OK. -/
def SHT3x_InitTail (Handler : SHT3x_Handler) :
    Option (SHT3x_Result × SHT3x_Handler × List SHT3x_Event) :=
  match SHT3x_SetModeSingleShot Handler SHT3x_REPEATABILITY_LOW with
  | none => none
  | some (_, h2, tr1) =>
    let cmd := [SHT3X_COMMAND_SOFT_RESET_MSB, SHT3X_COMMAND_SOFT_RESET_LSB]
    match h2.PlatformSend with
    | none => none
    | some sendF =>
      if sendF h2.AddressI2C cmd ≠ 0 then
        some (SHT3x_FAIL, h2, tr1 ++ [evSend h2.AddressI2C cmd])
      else
        match h2.PlatformDelay with
        | none => none
        | some _ =>
          some (SHT3x_OK, h2,
            tr1 ++ [evSend h2.AddressI2C cmd, evDelay 2])

/-- The CRC-defaulting step of `SHT3x_Init` (SHT3x.c, lines 433-434): if no
CRC capability is bound, install the library's `SHT3x_CheckCRC`, which
accepts everything. -/
def SHT3x_InitCRCDefault (h0 : SHT3x_Handler) : SHT3x_Handler :=
  if h0.PlatformCRC.isNone then { h0 with PlatformCRC := some fun _ _ => 0 }
  else h0

/-- `SHT3x_Init` (SHT3x.c, lines 421-452): resolve the address, check that
the three required capabilities are bound (INVALID_PARAM otherwise), install
the default always-valid CRC check if none is bound, run the optional
platform init (its nonzero status becomes FAIL), then the tail above.  Note
that the C code ignores the result of its `SHT3x_SetModeSingleShot` call. -/
def SHT3x_Init (Handler : SHT3x_Handler) (Address : Nat) :
    Option (SHT3x_Result × SHT3x_Handler × List SHT3x_Event) :=
  let h0 := (SHT3x_SetAddressI2C Handler Address).2
  if h0.PlatformSend.isNone ∨ h0.PlatformReceive.isNone ∨
      h0.PlatformDelay.isNone then
    some (SHT3x_INVALID_PARAM, h0, [])
  else
    match (SHT3x_InitCRCDefault h0).PlatformInit with
    | some st =>
      if st ≠ 0 then some (SHT3x_FAIL, SHT3x_InitCRCDefault h0, [])
      else SHT3x_InitTail (SHT3x_InitCRCDefault h0)
    | none => SHT3x_InitTail (SHT3x_InitCRCDefault h0)

/-- The 15-entry periodic command table as documented in the specification
(one 2-byte command per speed and repeatability pair, MSB first; e.g.
speed 4MPS with high repeatability is 0x23 0x34).  This definition follows
the documented table, to be compared against what `SHT3x_SetModePeriodic`
actually sends. -/
def specPeriodicCommand (Speed Repeatability : Nat) : List Nat :=
  match Speed, Repeatability with
  | 0, 0 => [0x20, 0x2F]
  | 0, 1 => [0x20, 0x24]
  | 0, 2 => [0x20, 0x32]
  | 1, 0 => [0x21, 0x2D]
  | 1, 1 => [0x21, 0x26]
  | 1, 2 => [0x21, 0x30]
  | 2, 0 => [0x22, 0x2B]
  | 2, 1 => [0x22, 0x20]
  | 2, 2 => [0x22, 0x36]
  | 3, 0 => [0x23, 0x29]
  | 3, 1 => [0x23, 0x22]
  | 3, 2 => [0x23, 0x34]
  | 4, 0 => [0x27, 0x2A]
  | 4, 1 => [0x27, 0x21]
  | 4, 2 => [0x27, 0x37]
  | _, _ => []

/- Concrete adapter capabilities used to exercise the model at specific
inputs. -/

/-- A send capability that always succeeds. -/
def sendOkF : Nat → List Nat → Int := fun _ _ => 0

/-- A send capability that always fails. -/
def sendFailF : Nat → List Nat → Int := fun _ _ => -1

/-- A send capability that fails exactly on the stop-periodic command and
succeeds on everything else. -/
def sendFailStopF : Nat → List Nat → Int := fun _ data =>
  if data = [SHT3X_COMMAND_STOP_PERIODIC_MSB, SHT3X_COMMAND_STOP_PERIODIC_LSB]
  then -1 else 0

/-- A receive capability that succeeds and leaves the buffer as it was. -/
def recvEchoF : Nat → Nat → List Nat → Nat → Int × List Nat :=
  fun _ _ buf _ => (0, buf)

/-- A receive capability that always fails and does not write the buffer. -/
def recvFailKeepF : Nat → Nat → List Nat → Nat → Int × List Nat :=
  fun _ _ buf _ => (-1, buf)

/-- A receive capability that always reports failure status -1 but still
writes a plausible 6-byte measurement into the buffer. -/
def recvFailWriteF : Nat → Nat → List Nat → Nat → Int × List Nat :=
  fun _ _ _ _ => (-1, [0x66, 0x2E, 0xFF, 0x7D, 0x13, 0xFF])

/-- A receive capability that succeeds and delivers a fixed 6-byte
measurement. -/
def recvDataF : Nat → Nat → List Nat → Nat → Int × List Nat :=
  fun _ _ _ _ => (0, [0x66, 0x2E, 0xFF, 0x7D, 0x13, 0xFF])

/-- A receive capability that succeeds and delivers a measurement whose two
CRC positions are both zero. -/
def recvZeroCrcF : Nat → Nat → List Nat → Nat → Int × List Nat :=
  fun _ _ _ _ => (0, [0x12, 0x34, 0x00, 0x56, 0x78, 0x00])

/-- A receive capability that always returns the bus-NACK status -3. -/
def recvNackF : Nat → Nat → List Nat → Nat → Int × List Nat :=
  fun _ _ buf _ => (-3, buf)

/-- A receive capability that succeeds and delivers a 3-byte status
response. -/
def recvStatusF : Nat → Nat → List Nat → Nat → Int × List Nat :=
  fun _ _ _ _ => (0, [0xAB, 0xCD, 0x12])

/-- A delay capability that always succeeds. -/
def delayOkF : Nat → Int := fun _ => 0

/-- A CRC capability that accepts everything (the library's default). -/
def crcOkF : Nat → Nat → Int := fun _ _ => 0

/-- A CRC capability that rejects everything. -/
def crcFailF : Nat → Nat → Int := fun _ _ => -1

/-- A fully bound handler in SingleShot/High state, used as the base of the
concrete test fixtures. -/
def baseHandler : SHT3x_Handler where
  AddressI2C := SHT3X_I2C_ADDRESS_A
  Mode := SHT3x_MODE_SINGLESHOT
  Repeatability := SHT3x_REPEATABILITY_HIGH
  Speed := SHT3x_SPEED_05MPS
  PlatformInit := none
  PlatformDeInit := none
  PlatformSend := some sendOkF
  PlatformReceive := some recvEchoF
  PlatformDelay := some delayOkF
  PlatformCRC := some crcOkF

/-- An all-zero sample fixture. -/
def sample0 : SHT3x_Sample := ⟨0, 0, 0, 0, 0⟩

/-- A CRC capability that accepts the temperature word of the fixed
measurement fixture (raw 26158) and rejects its humidity word (raw 32019). -/
def crcSelF : Nat → Nat → Int := fun d _ => if d = 32019 then -1 else 0

/-- The fixed 6-byte measurement fixture: temperature raw 0x662E, CRC byte
0xFF, humidity raw 0x7D13, CRC byte 0xFF. -/
def measBuf : List Nat := [0x66, 0x2E, 0xFF, 0x7D, 0x13, 0xFF]

/-- Periodic-mode handler whose receive delivers `measBuf` and whose CRC
capability rejects everything. -/
def hC4a : SHT3x_Handler :=
  { baseHandler with Mode := SHT3x_MODE_PERIODIC, PlatformReceive := some recvDataF, PlatformCRC := some crcFailF }

/-- Periodic-mode handler whose CRC capability accepts the temperature word
and rejects the humidity word. -/
def hC4b : SHT3x_Handler :=
  { baseHandler with Mode := SHT3x_MODE_PERIODIC, PlatformReceive := some recvDataF, PlatformCRC := some crcSelF }

/-- Single-shot handler whose receive delivers `measBuf` and whose CRC
capability rejects everything. -/
def hC4c : SHT3x_Handler :=
  { baseHandler with PlatformReceive := some recvDataF, PlatformCRC := some crcFailF }

/-- Single-shot handler whose CRC capability accepts the temperature word and
rejects the humidity word. -/
def hC4d : SHT3x_Handler :=
  { baseHandler with PlatformReceive := some recvDataF, PlatformCRC := some crcSelF }

/-- Handler whose receive delivers a 3-byte status response and whose CRC
capability rejects everything. -/
def hC4e : SHT3x_Handler :=
  { baseHandler with PlatformReceive := some recvStatusF, PlatformCRC := some crcFailF }

/-- A periodic-mode, high-repeatability handler with an all-succeeding
adapter, to be initialised. -/
def hC9w : SHT3x_Handler :=
  { baseHandler with Mode := SHT3x_MODE_PERIODIC, Repeatability := SHT3x_REPEATABILITY_HIGH }

/-- The handler state expected after a successful `SHT3x_Init` of `hC9w` with
selector 1: address B, SingleShot mode, Low repeatability. -/
def hC9res : SHT3x_Handler :=
  { baseHandler with AddressI2C := SHT3X_I2C_ADDRESS_B, Mode := SHT3x_MODE_SINGLESHOT, Repeatability := SHT3x_REPEATABILITY_LOW }

/-!
Helper lemmas about the embedded operations, shared by the claim theorems
below.
-/

/-- `SHT3x_SetAddressI2C` never touches the capability bindings. -/
theorem setAddress_preserves_platform (h : SHT3x_Handler) (A : Nat) :
    (SHT3x_SetAddressI2C h A).2.PlatformSend = h.PlatformSend ∧
    (SHT3x_SetAddressI2C h A).2.PlatformReceive = h.PlatformReceive ∧
    (SHT3x_SetAddressI2C h A).2.PlatformDelay = h.PlatformDelay ∧
    (SHT3x_SetAddressI2C h A).2.PlatformCRC = h.PlatformCRC ∧
    (SHT3x_SetAddressI2C h A).2.PlatformInit = h.PlatformInit := by
  unfold SHT3x_SetAddressI2C
  split <;> try split
  all_goals exact ⟨rfl, rfl, rfl, rfl, rfl⟩

/-- `SHT3x_SetModePeriodic` on a valid speed and repeatability whose command
send succeeds. -/
theorem setModePeriodic_ok_eq (h : SHT3x_Handler)
    (sendF : Nat → List Nat → Int) (Speed Repeatability : Nat)
    (lsbs : List Nat) (lsb : Nat)
    (hsend : h.PlatformSend = some sendF)
    (h1 : ComandPeriodicLSB Speed = some lsbs)
    (h2 : lsbs[Repeatability]? = some lsb)
    (h3 : sendF h.AddressI2C [ComandPeriodicMSB[Speed]?.getD 0, lsb] = 0) :
    SHT3x_SetModePeriodic h Speed Repeatability =
      some (SHT3x_OK,
        { h with Mode := SHT3x_MODE_PERIODIC, Speed := Speed,
                 Repeatability := Repeatability },
        [evSend h.AddressI2C [ComandPeriodicMSB[Speed]?.getD 0, lsb]]) := by
  unfold SHT3x_SetModePeriodic
  rw [h1]
  simp [h2, hsend, h3]

/-- `SHT3x_SetModePeriodic` on a valid speed and repeatability whose command
send fails: the handler is returned unchanged. -/
theorem setModePeriodic_fail_eq (h : SHT3x_Handler)
    (sendF : Nat → List Nat → Int) (Speed Repeatability : Nat)
    (lsbs : List Nat) (lsb : Nat)
    (hsend : h.PlatformSend = some sendF)
    (h1 : ComandPeriodicLSB Speed = some lsbs)
    (h2 : lsbs[Repeatability]? = some lsb)
    (h3 : sendF h.AddressI2C [ComandPeriodicMSB[Speed]?.getD 0, lsb] ≠ 0) :
    SHT3x_SetModePeriodic h Speed Repeatability =
      some (SHT3x_FAIL, h,
        [evSend h.AddressI2C [ComandPeriodicMSB[Speed]?.getD 0, lsb]]) := by
  unfold SHT3x_SetModePeriodic
  rw [h1]
  simp [h2, hsend, h3]

/-- `SHT3x_SetModeSingleShot` whose stop-periodic send succeeds. -/
theorem setModeSingleShot_ok_eq (h : SHT3x_Handler)
    (sendF : Nat → List Nat → Int) (r : Nat)
    (hsend : h.PlatformSend = some sendF)
    (hok : sendF h.AddressI2C
      [SHT3X_COMMAND_STOP_PERIODIC_MSB, SHT3X_COMMAND_STOP_PERIODIC_LSB] = 0) :
    SHT3x_SetModeSingleShot h r =
      some (SHT3x_OK,
        { h with Mode := SHT3x_MODE_SINGLESHOT, Repeatability := r },
        [evSend h.AddressI2C
          [SHT3X_COMMAND_STOP_PERIODIC_MSB, SHT3X_COMMAND_STOP_PERIODIC_LSB]]) := by
  unfold SHT3x_SetModeSingleShot
  simp [hsend, hok]

/-- The receive loop under an adapter whose receive always fails and leaves
the buffer untouched: all `n` attempts run, each followed by a 1 ms delay,
and the buffer is returned as it started. -/
theorem receiveLoop_all_fail (h : SHT3x_Handler)
    (recvF : Nat → Nat → List Nat → Nat → Int × List Nat) (delayF : Nat → Int)
    (hrecv : h.PlatformReceive = some recvF)
    (hdly : h.PlatformDelay = some delayF)
    (hfail : ∀ i a b l, (recvF i a b l).1 ≠ 0)
    (hkeep : ∀ i a b l, (recvF i a b l).2 = b) :
    ∀ (n idx : Nat) (buf : List Nat),
      SHT3x_ReceiveLoop h n idx buf =
        some (buf,
          (List.replicate n [evReceive h.AddressI2C 6, evDelay 1]).flatten) := by
  intro n
  induction n with
  | zero => intro idx buf; simp [SHT3x_ReceiveLoop]
  | succ k ih =>
    intro idx buf
    rw [SHT3x_ReceiveLoop, hrecv]
    simp only [hfail idx h.AddressI2C buf 6, if_neg, ite_false]
    rw [hdly, hkeep idx h.AddressI2C buf 6, ih (idx + 1) buf]
    simp [List.replicate_succ]

/-- The receive loop when the very first attempt succeeds: exactly one
receive event, no delay, and the buffer is whatever that attempt wrote. -/
theorem receiveLoop_first_success (h : SHT3x_Handler)
    (recvF : Nat → Nat → List Nat → Nat → Int × List Nat)
    (hrecv : h.PlatformReceive = some recvF)
    (idx : Nat) (buf : List Nat)
    (hst : (recvF idx h.AddressI2C buf 6).1 = 0)
    (fuel n : Nat) (hn : n = fuel + 1) :
    SHT3x_ReceiveLoop h n idx buf =
      some ((recvF idx h.AddressI2C buf 6).2,
        [evReceive h.AddressI2C 6]) := by
  subst hn
  rw [SHT3x_ReceiveLoop, hrecv]
  simp [hst]

/-- The decode/CRC tail when the temperature CRC check fails: raw fields are
decoded, the humidity CRC is never checked, the derived fields stay as they
were. -/
theorem readSampleTail_temp_crc_fail (h : SHT3x_Handler) (s : SHT3x_Sample)
    (buf : List Nat) (tr : List SHT3x_Event) (crcF : Nat → Nat → Int)
    (hcrc : h.PlatformCRC = some crcF)
    (hfail : crcF (((buf.getD 0 0 <<< 8) ||| buf.getD 1 0) % 65536)
        (buf.getD 2 0) ≠ 0) :
    SHT3x_ReadSampleTail h s buf tr =
      some (SHT3x_CRC_ERROR,
        { s with TempRaw := ((buf.getD 0 0 <<< 8) ||| buf.getD 1 0) % 65536,
                 HumRaw := ((buf.getD 3 0 <<< 8) ||| buf.getD 4 0) % 65536 },
        tr ++ [evCrc (((buf.getD 0 0 <<< 8) ||| buf.getD 1 0) % 65536)
          (buf.getD 2 0)]) := by
  unfold SHT3x_ReadSampleTail
  simp only [hcrc]
  rw [if_pos hfail]

/-- The decode/CRC tail when the temperature CRC check passes and the
humidity CRC check fails: both checks happened, temperature first. -/
theorem readSampleTail_hum_crc_fail (h : SHT3x_Handler) (s : SHT3x_Sample)
    (buf : List Nat) (tr : List SHT3x_Event) (crcF : Nat → Nat → Int)
    (hcrc : h.PlatformCRC = some crcF)
    (hok : crcF (((buf.getD 0 0 <<< 8) ||| buf.getD 1 0) % 65536)
        (buf.getD 2 0) = 0)
    (hfail : crcF (((buf.getD 3 0 <<< 8) ||| buf.getD 4 0) % 65536)
        (buf.getD 5 0) ≠ 0) :
    SHT3x_ReadSampleTail h s buf tr =
      some (SHT3x_CRC_ERROR,
        { s with TempRaw := ((buf.getD 0 0 <<< 8) ||| buf.getD 1 0) % 65536,
                 HumRaw := ((buf.getD 3 0 <<< 8) ||| buf.getD 4 0) % 65536 },
        tr ++ [evCrc (((buf.getD 0 0 <<< 8) ||| buf.getD 1 0) % 65536)
            (buf.getD 2 0),
          evCrc (((buf.getD 3 0 <<< 8) ||| buf.getD 4 0) % 65536)
            (buf.getD 5 0)]) := by
  unfold SHT3x_ReadSampleTail
  simp only [hcrc]
  rw [if_neg (by simpa using hok), if_pos hfail]
  simp

/-- A periodic/ART read with successful send and receive reaches the
decode/CRC tail with the received buffer and the send/receive trace. -/
theorem readSample_periodic_to_tail (h : SHT3x_Handler) (s : SHT3x_Sample)
    (sendF : Nat → List Nat → Int)
    (recvF : Nat → Nat → List Nat → Nat → Int × List Nat) (B : List Nat)
    (hmode : h.Mode = SHT3x_MODE_PERIODIC ∨ h.Mode = SHT3x_MODE_ART)
    (hsend : h.PlatformSend = some sendF)
    (hsok : sendF h.AddressI2C
      [SHT3X_COMMAND_FETCH_DATA_MSB, SHT3X_COMMAND_FETCH_DATA_LSB] = 0)
    (hrecv : h.PlatformReceive = some recvF)
    (hr : recvF 0 h.AddressI2C [0, 0, 0, 0, 0, 0] 6 = (0, B)) :
    SHT3x_ReadSample h s =
      SHT3x_ReadSampleTail h s B
        [evSend h.AddressI2C
          [SHT3X_COMMAND_FETCH_DATA_MSB, SHT3X_COMMAND_FETCH_DATA_LSB],
         evReceive h.AddressI2C 6] := by
  have hm0 : ¬ h.Mode = SHT3x_MODE_SINGLESHOT := by
    rcases hmode with hm | hm <;> rw [hm] <;> decide
  unfold SHT3x_ReadSample
  simp [hm0, hsend, hsok, hrecv, hr]

/-- A single-shot read whose first receive succeeds with a buffer passing the
all-zero-CRC guard reaches the decode/CRC tail. -/
theorem readSample_singleshot_to_tail (h : SHT3x_Handler) (s : SHT3x_Sample)
    (sendF : Nat → List Nat → Int)
    (recvF : Nat → Nat → List Nat → Nat → Int × List Nat)
    (lsb : Nat) (B : List Nat)
    (hmode : h.Mode = SHT3x_MODE_SINGLESHOT)
    (hlsb : singleShotDisableLSB h.Repeatability = some lsb)
    (hsend : h.PlatformSend = some sendF)
    (hsok : sendF h.AddressI2C [SHT3X_COMMAND_SINGLESHOT_DISABLE_MSB, lsb] = 0)
    (hrecv : h.PlatformReceive = some recvF)
    (hr : recvF 0 h.AddressI2C [0, 0, 0, 0, 0, 0] 6 = (0, B))
    (hguard : ¬ (B[2]?.getD 0 = 0 ∧ B[5]?.getD 0 = 0)) :
    SHT3x_ReadSample h s =
      SHT3x_ReadSampleTail h s B
        [evSend h.AddressI2C [SHT3X_COMMAND_SINGLESHOT_DISABLE_MSB, lsb],
         evReceive h.AddressI2C 6] := by
  unfold SHT3x_ReadSample
  rw [hmode]
  simp only [if_pos rfl, hlsb, hsend, hsok]
  rw [receiveLoop_first_success h recvF hrecv 0 [0, 0, 0, 0, 0, 0]
    (by rw [hr]) 19 20 rfl, hr]
  rcases not_and_or.mp hguard with hg | hg <;> simp [hg]

/-- `SHT3x_ReadStatus` with a successful transaction and a CRC mismatch: the
decoded status word is still delivered to the caller. -/
theorem readStatus_crc_fail (h : SHT3x_Handler) (Status : Nat)
    (sendF : Nat → List Nat → Int)
    (recvF : Nat → Nat → List Nat → Nat → Int × List Nat)
    (crcF : Nat → Nat → Int) (C : List Nat)
    (hsend : h.PlatformSend = some sendF)
    (hsok : sendF h.AddressI2C
      [SHT3X_COMMAND_STATUS_READ_MSB, SHT3X_COMMAND_STATUS_READ_LSB] = 0)
    (hrecv : h.PlatformReceive = some recvF)
    (hr : recvF 0 h.AddressI2C [0, 0, 0] 3 = (0, C))
    (hcrc : h.PlatformCRC = some crcF)
    (hfail : crcF (((C.getD 0 0 <<< 8) ||| C.getD 1 0) % 65536)
      (C.getD 2 0) ≠ 0) :
    SHT3x_ReadStatus h Status =
      some (SHT3x_CRC_ERROR,
        ((C.getD 0 0 <<< 8) ||| C.getD 1 0) % 65536,
        [evSend h.AddressI2C
          [SHT3X_COMMAND_STATUS_READ_MSB, SHT3X_COMMAND_STATUS_READ_LSB],
         evReceive h.AddressI2C 3,
         evCrc (((C.getD 0 0 <<< 8) ||| C.getD 1 0) % 65536) (C.getD 2 0)]) := by
  unfold SHT3x_ReadStatus
  simp only [hsend]
  rw [if_neg (by simpa using hsok)]
  simp only [hrecv, hr]
  rw [if_neg (by decide)]
  simp only [hcrc]
  rw [if_pos hfail]
  simp

/-- `SHT3x_InitCRCDefault` changes nothing but the CRC binding. -/
theorem initCRCDefault_preserves (h0 : SHT3x_Handler) :
    (SHT3x_InitCRCDefault h0).AddressI2C = h0.AddressI2C ∧
    (SHT3x_InitCRCDefault h0).Mode = h0.Mode ∧
    (SHT3x_InitCRCDefault h0).Repeatability = h0.Repeatability ∧
    (SHT3x_InitCRCDefault h0).PlatformSend = h0.PlatformSend ∧
    (SHT3x_InitCRCDefault h0).PlatformReceive = h0.PlatformReceive ∧
    (SHT3x_InitCRCDefault h0).PlatformDelay = h0.PlatformDelay := by
  unfold SHT3x_InitCRCDefault
  split
  all_goals exact ⟨rfl, rfl, rfl, rfl, rfl, rfl⟩

/-- If the tail of `SHT3x_Init` returned OK and the stop-periodic send had
succeeded, then the handler came out in SingleShot/Low state, the soft-reset
send succeeded, and the trace is stop-periodic send, soft-reset send, 2 ms
delay. -/
theorem initTail_ok (h1 : SHT3x_Handler)
    (sendF : Nat → List Nat → Int) (delayF : Nat → Int)
    (hsend : h1.PlatformSend = some sendF)
    (hdly : h1.PlatformDelay = some delayF)
    (hstop : sendF h1.AddressI2C
      [SHT3X_COMMAND_STOP_PERIODIC_MSB, SHT3X_COMMAND_STOP_PERIODIC_LSB] = 0)
    (h' : SHT3x_Handler) (tr : List SHT3x_Event)
    (htail : SHT3x_InitTail h1 = some (SHT3x_OK, h', tr)) :
    h' = { h1 with Mode := SHT3x_MODE_SINGLESHOT,
                   Repeatability := SHT3x_REPEATABILITY_LOW } ∧
    sendF h1.AddressI2C
      [SHT3X_COMMAND_SOFT_RESET_MSB, SHT3X_COMMAND_SOFT_RESET_LSB] = 0 ∧
    tr = [evSend h1.AddressI2C
            [SHT3X_COMMAND_STOP_PERIODIC_MSB, SHT3X_COMMAND_STOP_PERIODIC_LSB],
          evSend h1.AddressI2C
            [SHT3X_COMMAND_SOFT_RESET_MSB, SHT3X_COMMAND_SOFT_RESET_LSB],
          evDelay 2] := by
  unfold SHT3x_InitTail at htail
  rw [setModeSingleShot_ok_eq h1 sendF SHT3x_REPEATABILITY_LOW hsend hstop]
    at htail
  simp only [hsend, hdly] at htail
  by_cases hrs : sendF h1.AddressI2C
      [SHT3X_COMMAND_SOFT_RESET_MSB, SHT3X_COMMAND_SOFT_RESET_LSB] = 0
  · rw [if_neg (by simpa using hrs)] at htail
    simp only [Option.some.injEq, Prod.mk.injEq] at htail
    obtain ⟨-, hh, ht⟩ := htail
    subst hh
    subst ht
    exact ⟨by rw [hsend, hdly], hrs, by simp⟩
  · rw [if_pos hrs] at htail
    simp at htail

/-!
Claim theorems.
-/

/-- Claim C1: for every one of the five speeds and three repeatabilities,
`SHT3x_SetModePeriodic` sends exactly the documented unique 2-byte command of
the 15-entry speed-by-repeatability table (MSB first, e.g. speed 4MPS with
high repeatability sends 0x23 0x34), and on send success returns OK and
stores mode Periodic together with both parameters; the 15 documented
commands are pairwise distinct. -/
theorem C1_setModePeriodic_command_table :
    (∀ (h : SHT3x_Handler) (sendF : Nat → List Nat → Int) (s r : Nat),
      h.PlatformSend = some sendF → s < 5 → r < 3 →
      sendF h.AddressI2C (specPeriodicCommand s r) = 0 →
      SHT3x_SetModePeriodic h s r =
        some (SHT3x_OK,
          { h with Mode := SHT3x_MODE_PERIODIC, Speed := s,
                   Repeatability := r },
          [evSend h.AddressI2C (specPeriodicCommand s r)])) ∧
    (∀ (s s' : Fin 5) (r r' : Fin 3),
      specPeriodicCommand s.val r.val = specPeriodicCommand s'.val r'.val →
      s = s' ∧ r = r') := by
  constructor
  · intro h sendF s r hsend hs hr hok
    interval_cases s <;> interval_cases r <;>
      exact setModePeriodic_ok_eq _ _ _ _ _ _ hsend rfl rfl hok
  · decide

/-- Witness for C1 at the claim's own example: speed 4MPS with high
repeatability sends 0x23 0x34 through an all-succeeding adapter. -/
theorem C1_setModePeriodic_command_table_witness :
    baseHandler.PlatformSend = some sendOkF ∧
    sendOkF baseHandler.AddressI2C (specPeriodicCommand 3 2) = 0 ∧
    SHT3x_SetModePeriodic baseHandler 3 2 =
      some (SHT3x_OK,
        { baseHandler with Mode := SHT3x_MODE_PERIODIC, Speed := 3,
                           Repeatability := 2 },
        [evSend baseHandler.AddressI2C (specPeriodicCommand 3 2)]) :=
  ⟨rfl, rfl,
    C1_setModePeriodic_command_table.1 baseHandler sendOkF 3 2 rfl
      (by decide) (by decide) rfl⟩

/-- Counterexample to claim C2 as stated: an adapter whose receive always
returns the nonzero status -1 but writes a plausible measurement into the
caller's buffer makes the single-shot `SHT3x_ReadSample` return OK, not
FAIL, because after the 20 exhausted attempts the code only inspects the
buffer contents, never the final receive status. -/
theorem C2_counterexample_failing_receive_writes_buffer :
    (∀ i a b l, (recvFailWriteF i a b l).1 ≠ 0) ∧
    (SHT3x_ReadSample { baseHandler with PlatformReceive := some recvFailWriteF }
        sample0).map (fun r => r.1) = some SHT3x_OK := by
  constructor
  · intro i a b l; simp [recvFailWriteF]
  · rfl

/-- Claim C2 (amended: the failing receives must leave the buffer unchanged,
e.g. not write it at all): such an adapter makes the single-shot
`SHT3x_ReadSample` perform exactly 20 receive attempts with a 1 ms delay
after each failed attempt, and return FAIL with the caller's sample
untouched. -/
theorem C2_singleShot_retries_twenty_then_fail :
    ∀ (h : SHT3x_Handler) (s : SHT3x_Sample)
      (sendF : Nat → List Nat → Int)
      (recvF : Nat → Nat → List Nat → Nat → Int × List Nat)
      (delayF : Nat → Int) (lsb : Nat),
      h.Mode = SHT3x_MODE_SINGLESHOT →
      singleShotDisableLSB h.Repeatability = some lsb →
      h.PlatformSend = some sendF →
      sendF h.AddressI2C [SHT3X_COMMAND_SINGLESHOT_DISABLE_MSB, lsb] = 0 →
      h.PlatformReceive = some recvF →
      h.PlatformDelay = some delayF →
      (∀ i a b l, (recvF i a b l).1 ≠ 0) →
      (∀ i a b l, (recvF i a b l).2 = b) →
      SHT3x_ReadSample h s =
        some (SHT3x_FAIL, s,
          evSend h.AddressI2C [SHT3X_COMMAND_SINGLESHOT_DISABLE_MSB, lsb] ::
            (List.replicate 20 [evReceive h.AddressI2C 6, evDelay 1]).flatten) := by
  intro h s sendF recvF delayF lsb hmode hlsb hsend hsok hrecv hdly hfail hkeep
  unfold SHT3x_ReadSample
  rw [hmode]
  simp only [if_pos rfl, hlsb, hsend, hsok]
  rw [receiveLoop_all_fail h recvF delayF hrecv hdly hfail hkeep 20 0
    [0, 0, 0, 0, 0, 0]]
  simp

/-- Witness for C2 (amended) with a concrete always-failing, non-writing
receive capability. -/
theorem C2_singleShot_retries_twenty_then_fail_witness :
    SHT3x_ReadSample { baseHandler with PlatformReceive := some recvFailKeepF }
        sample0 =
      some (SHT3x_FAIL, sample0,
        evSend SHT3X_I2C_ADDRESS_A [SHT3X_COMMAND_SINGLESHOT_DISABLE_MSB, 0x00] ::
          (List.replicate 20
            [evReceive SHT3X_I2C_ADDRESS_A 6, evDelay 1]).flatten) :=
  C2_singleShot_retries_twenty_then_fail _ sample0 sendOkF recvFailKeepF
    delayOkF 0x00 rfl rfl rfl rfl rfl rfl
    (by intro i a b l; simp [recvFailKeepF])
    (by intro i a b l; simp [recvFailKeepF])

/-- Claim C3: in Periodic or ART mode `SHT3x_ReadSample` sends the fetch-data
command 0xE0 0x00 once and makes exactly one receive attempt with no delay;
a receive status of -3 (bus-NACK) yields NO_DATA and any other nonzero
status yields FAIL, in both cases leaving the caller's sample untouched. -/
theorem C3_periodic_fetch_single_attempt :
    ∀ (h : SHT3x_Handler) (s : SHT3x_Sample)
      (sendF : Nat → List Nat → Int)
      (recvF : Nat → Nat → List Nat → Nat → Int × List Nat)
      (st : Int) (B : List Nat),
      (h.Mode = SHT3x_MODE_PERIODIC ∨ h.Mode = SHT3x_MODE_ART) →
      h.PlatformSend = some sendF →
      sendF h.AddressI2C
        [SHT3X_COMMAND_FETCH_DATA_MSB, SHT3X_COMMAND_FETCH_DATA_LSB] = 0 →
      h.PlatformReceive = some recvF →
      recvF 0 h.AddressI2C [0, 0, 0, 0, 0, 0] 6 = (st, B) →
      (st = -3 →
        SHT3x_ReadSample h s =
          some (SHT3x_NO_DATA, s,
            [evSend h.AddressI2C
              [SHT3X_COMMAND_FETCH_DATA_MSB, SHT3X_COMMAND_FETCH_DATA_LSB],
             evReceive h.AddressI2C 6])) ∧
      (st ≠ -3 → st ≠ 0 →
        SHT3x_ReadSample h s =
          some (SHT3x_FAIL, s,
            [evSend h.AddressI2C
              [SHT3X_COMMAND_FETCH_DATA_MSB, SHT3X_COMMAND_FETCH_DATA_LSB],
             evReceive h.AddressI2C 6])) := by
  intro h s sendF recvF st B hmode hsend hsok hrecv hr
  have hm0 : ¬ h.Mode = SHT3x_MODE_SINGLESHOT := by
    rcases hmode with hm | hm <;> rw [hm] <;> decide
  constructor
  · intro hst
    unfold SHT3x_ReadSample
    simp [hm0, hsend, hsok, hrecv, hr, hst]
  · intro hst1 hst2
    unfold SHT3x_ReadSample
    simp [hm0, hsend, hsok, hrecv, hr, hst1, hst2]

/-- Witness for C3: a Periodic-mode handler whose receive NACKs returns
NO_DATA after one send and one receive attempt. -/
theorem C3_periodic_fetch_single_attempt_witness :
    ({ baseHandler with Mode := SHT3x_MODE_PERIODIC, PlatformReceive := some recvNackF } : SHT3x_Handler).Mode = SHT3x_MODE_PERIODIC ∧
    SHT3x_ReadSample
      { baseHandler with Mode := SHT3x_MODE_PERIODIC, PlatformReceive := some recvNackF } sample0 =
      some (SHT3x_NO_DATA, sample0,
        [evSend SHT3X_I2C_ADDRESS_A
          [SHT3X_COMMAND_FETCH_DATA_MSB, SHT3X_COMMAND_FETCH_DATA_LSB],
         evReceive SHT3X_I2C_ADDRESS_A 6]) :=
  ⟨rfl,
    (C3_periodic_fetch_single_attempt _ sample0 sendOkF recvNackF (-3)
      [0, 0, 0, 0, 0, 0] (Or.inl rfl) rfl rfl rfl rfl).1 rfl⟩

/-- Claim C4: in `SHT3x_ReadSample`, after a successful transaction (in
either mode) the temperature CRC is checked before the humidity CRC through
the bound CRC capability, the first mismatch makes the whole call return
CRC_ERROR, and on every CRC_ERROR return both raw fields have already been
decoded from the byte buffer while the three derived fields are left
unmodified; likewise `SHT3x_ReadStatus` writes the decoded 16-bit status for
the caller before its CRC check and returns CRC_ERROR on mismatch. -/
theorem C4_crcError_short_circuit :
    ∀ (h : SHT3x_Handler) (s : SHT3x_Sample) (Status : Nat)
      (sendF : Nat → List Nat → Int)
      (recvF : Nat → Nat → List Nat → Nat → Int × List Nat)
      (crcF : Nat → Nat → Int) (lsb : Nat) (B C : List Nat),
      ((h.Mode = SHT3x_MODE_PERIODIC ∨ h.Mode = SHT3x_MODE_ART) →
        h.PlatformSend = some sendF →
        sendF h.AddressI2C
          [SHT3X_COMMAND_FETCH_DATA_MSB, SHT3X_COMMAND_FETCH_DATA_LSB] = 0 →
        h.PlatformReceive = some recvF →
        recvF 0 h.AddressI2C [0, 0, 0, 0, 0, 0] 6 = (0, B) →
        h.PlatformCRC = some crcF →
        crcF (((B.getD 0 0 <<< 8) ||| B.getD 1 0) % 65536) (B.getD 2 0) ≠ 0 →
        SHT3x_ReadSample h s =
          some (SHT3x_CRC_ERROR,
            { s with
              TempRaw := ((B.getD 0 0 <<< 8) ||| B.getD 1 0) % 65536,
              HumRaw := ((B.getD 3 0 <<< 8) ||| B.getD 4 0) % 65536 },
            [evSend h.AddressI2C
              [SHT3X_COMMAND_FETCH_DATA_MSB, SHT3X_COMMAND_FETCH_DATA_LSB],
             evReceive h.AddressI2C 6,
             evCrc (((B.getD 0 0 <<< 8) ||| B.getD 1 0) % 65536)
               (B.getD 2 0)])) ∧
      ((h.Mode = SHT3x_MODE_PERIODIC ∨ h.Mode = SHT3x_MODE_ART) →
        h.PlatformSend = some sendF →
        sendF h.AddressI2C
          [SHT3X_COMMAND_FETCH_DATA_MSB, SHT3X_COMMAND_FETCH_DATA_LSB] = 0 →
        h.PlatformReceive = some recvF →
        recvF 0 h.AddressI2C [0, 0, 0, 0, 0, 0] 6 = (0, B) →
        h.PlatformCRC = some crcF →
        crcF (((B.getD 0 0 <<< 8) ||| B.getD 1 0) % 65536) (B.getD 2 0) = 0 →
        crcF (((B.getD 3 0 <<< 8) ||| B.getD 4 0) % 65536) (B.getD 5 0) ≠ 0 →
        SHT3x_ReadSample h s =
          some (SHT3x_CRC_ERROR,
            { s with
              TempRaw := ((B.getD 0 0 <<< 8) ||| B.getD 1 0) % 65536,
              HumRaw := ((B.getD 3 0 <<< 8) ||| B.getD 4 0) % 65536 },
            [evSend h.AddressI2C
              [SHT3X_COMMAND_FETCH_DATA_MSB, SHT3X_COMMAND_FETCH_DATA_LSB],
             evReceive h.AddressI2C 6,
             evCrc (((B.getD 0 0 <<< 8) ||| B.getD 1 0) % 65536) (B.getD 2 0),
             evCrc (((B.getD 3 0 <<< 8) ||| B.getD 4 0) % 65536)
               (B.getD 5 0)])) ∧
      (h.Mode = SHT3x_MODE_SINGLESHOT →
        singleShotDisableLSB h.Repeatability = some lsb →
        h.PlatformSend = some sendF →
        sendF h.AddressI2C
          [SHT3X_COMMAND_SINGLESHOT_DISABLE_MSB, lsb] = 0 →
        h.PlatformReceive = some recvF →
        recvF 0 h.AddressI2C [0, 0, 0, 0, 0, 0] 6 = (0, B) →
        ¬ (B[2]?.getD 0 = 0 ∧ B[5]?.getD 0 = 0) →
        h.PlatformCRC = some crcF →
        crcF (((B.getD 0 0 <<< 8) ||| B.getD 1 0) % 65536) (B.getD 2 0) ≠ 0 →
        SHT3x_ReadSample h s =
          some (SHT3x_CRC_ERROR,
            { s with
              TempRaw := ((B.getD 0 0 <<< 8) ||| B.getD 1 0) % 65536,
              HumRaw := ((B.getD 3 0 <<< 8) ||| B.getD 4 0) % 65536 },
            [evSend h.AddressI2C [SHT3X_COMMAND_SINGLESHOT_DISABLE_MSB, lsb],
             evReceive h.AddressI2C 6,
             evCrc (((B.getD 0 0 <<< 8) ||| B.getD 1 0) % 65536)
               (B.getD 2 0)])) ∧
      (h.Mode = SHT3x_MODE_SINGLESHOT →
        singleShotDisableLSB h.Repeatability = some lsb →
        h.PlatformSend = some sendF →
        sendF h.AddressI2C
          [SHT3X_COMMAND_SINGLESHOT_DISABLE_MSB, lsb] = 0 →
        h.PlatformReceive = some recvF →
        recvF 0 h.AddressI2C [0, 0, 0, 0, 0, 0] 6 = (0, B) →
        ¬ (B[2]?.getD 0 = 0 ∧ B[5]?.getD 0 = 0) →
        h.PlatformCRC = some crcF →
        crcF (((B.getD 0 0 <<< 8) ||| B.getD 1 0) % 65536) (B.getD 2 0) = 0 →
        crcF (((B.getD 3 0 <<< 8) ||| B.getD 4 0) % 65536) (B.getD 5 0) ≠ 0 →
        SHT3x_ReadSample h s =
          some (SHT3x_CRC_ERROR,
            { s with
              TempRaw := ((B.getD 0 0 <<< 8) ||| B.getD 1 0) % 65536,
              HumRaw := ((B.getD 3 0 <<< 8) ||| B.getD 4 0) % 65536 },
            [evSend h.AddressI2C [SHT3X_COMMAND_SINGLESHOT_DISABLE_MSB, lsb],
             evReceive h.AddressI2C 6,
             evCrc (((B.getD 0 0 <<< 8) ||| B.getD 1 0) % 65536) (B.getD 2 0),
             evCrc (((B.getD 3 0 <<< 8) ||| B.getD 4 0) % 65536)
               (B.getD 5 0)])) ∧
      (h.PlatformSend = some sendF →
        sendF h.AddressI2C
          [SHT3X_COMMAND_STATUS_READ_MSB, SHT3X_COMMAND_STATUS_READ_LSB] = 0 →
        h.PlatformReceive = some recvF →
        recvF 0 h.AddressI2C [0, 0, 0] 3 = (0, C) →
        h.PlatformCRC = some crcF →
        crcF (((C.getD 0 0 <<< 8) ||| C.getD 1 0) % 65536) (C.getD 2 0) ≠ 0 →
        SHT3x_ReadStatus h Status =
          some (SHT3x_CRC_ERROR,
            ((C.getD 0 0 <<< 8) ||| C.getD 1 0) % 65536,
            [evSend h.AddressI2C
              [SHT3X_COMMAND_STATUS_READ_MSB, SHT3X_COMMAND_STATUS_READ_LSB],
             evReceive h.AddressI2C 3,
             evCrc (((C.getD 0 0 <<< 8) ||| C.getD 1 0) % 65536)
               (C.getD 2 0)])) := by
  intro h s Status sendF recvF crcF lsb B C
  refine ⟨?_, ?_, ?_, ?_, ?_⟩
  · intro hmode hsend hsok hrecv hr hcrc hfail
    rw [readSample_periodic_to_tail h s sendF recvF B hmode hsend hsok hrecv hr,
      readSampleTail_temp_crc_fail h s B _ crcF hcrc hfail]
    simp
  · intro hmode hsend hsok hrecv hr hcrc hokT hfail
    rw [readSample_periodic_to_tail h s sendF recvF B hmode hsend hsok hrecv hr,
      readSampleTail_hum_crc_fail h s B _ crcF hcrc hokT hfail]
    simp
  · intro hmode hlsb hsend hsok hrecv hr hguard hcrc hfail
    rw [readSample_singleshot_to_tail h s sendF recvF lsb B hmode hlsb hsend
        hsok hrecv hr hguard,
      readSampleTail_temp_crc_fail h s B _ crcF hcrc hfail]
    simp
  · intro hmode hlsb hsend hsok hrecv hr hguard hcrc hokT hfail
    rw [readSample_singleshot_to_tail h s sendF recvF lsb B hmode hlsb hsend
        hsok hrecv hr hguard,
      readSampleTail_hum_crc_fail h s B _ crcF hcrc hokT hfail]
    simp
  · intro hsend hsok hrecv hr hcrc hfail
    exact readStatus_crc_fail h Status sendF recvF crcF C hsend hsok hrecv hr
      hcrc hfail

/-- Witness for C4, exercising all five conjuncts with concrete adapters:
a rejecting CRC capability yields CRC_ERROR in Periodic and SingleShot mode
with the raw fields decoded and only the checks up to the first mismatch in
the trace, and `SHT3x_ReadStatus` still delivers the decoded status 0xABCD. -/
theorem C4_crcError_short_circuit_witness :
    (SHT3x_ReadSample hC4a sample0 =
      some (SHT3x_CRC_ERROR, { sample0 with TempRaw := 26158, HumRaw := 32019 },
        [evSend SHT3X_I2C_ADDRESS_A
          [SHT3X_COMMAND_FETCH_DATA_MSB, SHT3X_COMMAND_FETCH_DATA_LSB],
         evReceive SHT3X_I2C_ADDRESS_A 6, evCrc 26158 255])) ∧
    (SHT3x_ReadSample hC4b sample0 =
      some (SHT3x_CRC_ERROR, { sample0 with TempRaw := 26158, HumRaw := 32019 },
        [evSend SHT3X_I2C_ADDRESS_A
          [SHT3X_COMMAND_FETCH_DATA_MSB, SHT3X_COMMAND_FETCH_DATA_LSB],
         evReceive SHT3X_I2C_ADDRESS_A 6, evCrc 26158 255, evCrc 32019 255])) ∧
    (SHT3x_ReadSample hC4c sample0 =
      some (SHT3x_CRC_ERROR, { sample0 with TempRaw := 26158, HumRaw := 32019 },
        [evSend SHT3X_I2C_ADDRESS_A [SHT3X_COMMAND_SINGLESHOT_DISABLE_MSB, 0x00],
         evReceive SHT3X_I2C_ADDRESS_A 6, evCrc 26158 255])) ∧
    (SHT3x_ReadSample hC4d sample0 =
      some (SHT3x_CRC_ERROR, { sample0 with TempRaw := 26158, HumRaw := 32019 },
        [evSend SHT3X_I2C_ADDRESS_A [SHT3X_COMMAND_SINGLESHOT_DISABLE_MSB, 0x00],
         evReceive SHT3X_I2C_ADDRESS_A 6, evCrc 26158 255, evCrc 32019 255])) ∧
    (SHT3x_ReadStatus hC4e 7 =
      some (SHT3x_CRC_ERROR, 43981,
        [evSend SHT3X_I2C_ADDRESS_A
          [SHT3X_COMMAND_STATUS_READ_MSB, SHT3X_COMMAND_STATUS_READ_LSB],
         evReceive SHT3X_I2C_ADDRESS_A 3, evCrc 43981 18])) :=
  ⟨(C4_crcError_short_circuit hC4a sample0 7 sendOkF recvDataF crcFailF 0
      measBuf [0, 0, 0]).1 (Or.inl rfl) rfl rfl rfl rfl rfl (by decide),
   (C4_crcError_short_circuit hC4b sample0 7 sendOkF recvDataF crcSelF 0
      measBuf [0, 0, 0]).2.1 (Or.inl rfl) rfl rfl rfl rfl rfl (by decide)
      (by decide),
   (C4_crcError_short_circuit hC4c sample0 7 sendOkF recvDataF crcFailF 0
      measBuf [0, 0, 0]).2.2.1 rfl rfl rfl rfl rfl rfl (by decide) rfl
      (by decide),
   (C4_crcError_short_circuit hC4d sample0 7 sendOkF recvDataF crcSelF 0
      measBuf [0, 0, 0]).2.2.2.1 rfl rfl rfl rfl rfl rfl (by decide) rfl
      (by decide) (by decide),
   (C4_crcError_short_circuit hC4e sample0 7 sendOkF recvStatusF crcFailF 0
      measBuf [0xAB, 0xCD, 0x12]).2.2.2.2 rfl rfl rfl rfl rfl (by decide)⟩

/-- Claim C5: `SHT3x_ConvSample` is a pure function of the two 16-bit raw
counts computing Celsius as raw/65535*175-45, Fahrenheit as raw/65535*315-49
and humidity percent as raw/65535*100; raw count 0 yields -45, -49 and 0,
and raw count 65535 yields 130, 266 and 100. -/
theorem C5_convSample_transfer_functions :
    ∀ s : SHT3x_Sample,
      (SHT3x_ConvSample s).TempCelsius =
        ((s.TempRaw : ℚ) / 65535) * 175 - 45 ∧
      (SHT3x_ConvSample s).TempFahrenheit =
        ((s.TempRaw : ℚ) / 65535) * 315 - 49 ∧
      (SHT3x_ConvSample s).HumidityPercent =
        ((s.HumRaw : ℚ) / 65535) * 100 ∧
      (SHT3x_ConvSample { s with TempRaw := 0, HumRaw := 0 }).TempCelsius
        = -45 ∧
      (SHT3x_ConvSample { s with TempRaw := 0, HumRaw := 0 }).TempFahrenheit
        = -49 ∧
      (SHT3x_ConvSample { s with TempRaw := 0, HumRaw := 0 }).HumidityPercent
        = 0 ∧
      (SHT3x_ConvSample { s with TempRaw := 65535, HumRaw := 65535 }).TempCelsius
        = 130 ∧
      (SHT3x_ConvSample { s with TempRaw := 65535, HumRaw := 65535 }).TempFahrenheit
        = 266 ∧
      (SHT3x_ConvSample { s with TempRaw := 65535, HumRaw := 65535 }).HumidityPercent
        = 100 := by
  intro s
  refine ⟨rfl, rfl, rfl, ?_, ?_, ?_, ?_, ?_, ?_⟩ <;>
    norm_num [SHT3x_ConvSample]

/-- Claim C6 is contradicted by the code (code bug): `SHT3x_SetModeSingleShot`
performs no repeatability validation at all - with the out-of-range
repeatability 3 it still sends the stop-periodic command, stores 3 in the
handler and returns OK instead of INVALID_PARAM, contradicting its own
documented INVALID_PARAM result; and `SHT3x_SetModePeriodic` with a valid
speed and repeatability 3 reads past the end of its 3-entry command array
(undefined behaviour, modelled as `none`) instead of returning
INVALID_PARAM. -/
theorem C6_setMode_no_repeatability_validation :
    SHT3x_SetModeSingleShot { baseHandler with Mode := SHT3x_MODE_PERIODIC } 3 =
      some (SHT3x_OK,
        { baseHandler with Mode := SHT3x_MODE_SINGLESHOT, Repeatability := 3 },
        [evSend SHT3X_I2C_ADDRESS_A
          [SHT3X_COMMAND_STOP_PERIODIC_MSB, SHT3X_COMMAND_STOP_PERIODIC_LSB]]) ∧
    SHT3x_SetModePeriodic baseHandler 0 3 = none :=
  ⟨rfl, rfl⟩

/-- Claim C7: for each of the three mode-setting operations, when the 2-byte
command send fails the operation returns FAIL and the handler is returned
exactly as it was (mode, repeatability and speed untouched). -/
theorem C7_failed_send_preserves_handler :
    (∀ (h : SHT3x_Handler) (sendF : Nat → List Nat → Int) (r : Nat),
      h.PlatformSend = some sendF →
      sendF h.AddressI2C
        [SHT3X_COMMAND_STOP_PERIODIC_MSB, SHT3X_COMMAND_STOP_PERIODIC_LSB] ≠ 0 →
      SHT3x_SetModeSingleShot h r =
        some (SHT3x_FAIL, h,
          [evSend h.AddressI2C
            [SHT3X_COMMAND_STOP_PERIODIC_MSB, SHT3X_COMMAND_STOP_PERIODIC_LSB]])) ∧
    (∀ (h : SHT3x_Handler) (sendF : Nat → List Nat → Int) (s r : Nat),
      h.PlatformSend = some sendF → s < 5 → r < 3 →
      sendF h.AddressI2C (specPeriodicCommand s r) ≠ 0 →
      SHT3x_SetModePeriodic h s r =
        some (SHT3x_FAIL, h,
          [evSend h.AddressI2C (specPeriodicCommand s r)])) ∧
    (∀ (h : SHT3x_Handler) (sendF : Nat → List Nat → Int),
      h.PlatformSend = some sendF →
      sendF h.AddressI2C [SHT3X_COMMAND_ART_MSB, SHT3X_COMMAND_ART_LSB] ≠ 0 →
      SHT3x_SetModeART h =
        some (SHT3x_FAIL, h,
          [evSend h.AddressI2C [SHT3X_COMMAND_ART_MSB, SHT3X_COMMAND_ART_LSB]])) := by
  refine ⟨?_, ?_, ?_⟩
  · intro h sendF r hsend hfail
    unfold SHT3x_SetModeSingleShot
    simp [hsend, hfail]
  · intro h sendF s r hsend hs hr hfail
    interval_cases s <;> interval_cases r <;>
      exact setModePeriodic_fail_eq _ _ _ _ _ _ hsend rfl rfl hfail
  · intro h sendF hsend hfail
    unfold SHT3x_SetModeART
    simp [hsend, hfail]

/-- Witness for C7: an always-failing send makes each of the three
mode-setting operations return FAIL with the handler unchanged. -/
theorem C7_failed_send_preserves_handler_witness :
    ({ baseHandler with PlatformSend := some sendFailF } :
        SHT3x_Handler).PlatformSend = some sendFailF ∧
    sendFailF SHT3X_I2C_ADDRESS_A
      [SHT3X_COMMAND_STOP_PERIODIC_MSB, SHT3X_COMMAND_STOP_PERIODIC_LSB] ≠ 0 ∧
    SHT3x_SetModeSingleShot { baseHandler with PlatformSend := some sendFailF } 1 =
      some (SHT3x_FAIL, { baseHandler with PlatformSend := some sendFailF },
        [evSend SHT3X_I2C_ADDRESS_A
          [SHT3X_COMMAND_STOP_PERIODIC_MSB, SHT3X_COMMAND_STOP_PERIODIC_LSB]]) ∧
    SHT3x_SetModePeriodic { baseHandler with PlatformSend := some sendFailF } 3 2 =
      some (SHT3x_FAIL, { baseHandler with PlatformSend := some sendFailF },
        [evSend SHT3X_I2C_ADDRESS_A (specPeriodicCommand 3 2)]) ∧
    SHT3x_SetModeART { baseHandler with PlatformSend := some sendFailF } =
      some (SHT3x_FAIL, { baseHandler with PlatformSend := some sendFailF },
        [evSend SHT3X_I2C_ADDRESS_A
          [SHT3X_COMMAND_ART_MSB, SHT3X_COMMAND_ART_LSB]]) :=
  ⟨rfl, by decide,
    C7_failed_send_preserves_handler.1 _ sendFailF 1 rfl (by decide),
    C7_failed_send_preserves_handler.2.1 _ sendFailF 3 2 rfl (by decide)
      (by decide) (by decide),
    C7_failed_send_preserves_handler.2.2 _ sendFailF rfl (by decide)⟩

/-- Claim C8: in SingleShot mode, a 6-byte buffer whose two CRC positions
(bytes 2 and 5) are both zero makes `SHT3x_ReadSample` return FAIL - even
when the receive succeeded on its first attempt and delivered a genuine
measurement whose CRC bytes happen to both be zero. -/
theorem C8_zero_crc_guard_fails :
    ∀ (h : SHT3x_Handler) (s : SHT3x_Sample)
      (sendF : Nat → List Nat → Int)
      (recvF : Nat → Nat → List Nat → Nat → Int × List Nat)
      (lsb : Nat) (B : List Nat),
      h.Mode = SHT3x_MODE_SINGLESHOT →
      singleShotDisableLSB h.Repeatability = some lsb →
      h.PlatformSend = some sendF →
      sendF h.AddressI2C [SHT3X_COMMAND_SINGLESHOT_DISABLE_MSB, lsb] = 0 →
      h.PlatformReceive = some recvF →
      recvF 0 h.AddressI2C [0, 0, 0, 0, 0, 0] 6 = (0, B) →
      B[2]?.getD 0 = 0 → B[5]?.getD 0 = 0 →
      SHT3x_ReadSample h s =
        some (SHT3x_FAIL, s,
          [evSend h.AddressI2C [SHT3X_COMMAND_SINGLESHOT_DISABLE_MSB, lsb],
           evReceive h.AddressI2C 6]) := by
  intro h s sendF recvF lsb B hmode hlsb hsend hsok hrecv hr hb2 hb5
  unfold SHT3x_ReadSample
  rw [hmode]
  simp only [if_pos rfl, hlsb, hsend, hsok]
  rw [receiveLoop_first_success h recvF hrecv 0 [0, 0, 0, 0, 0, 0]
    (by rw [hr]) 19 20 rfl, hr]
  simp [hb2, hb5]

/-- Witness for C8: a first-attempt receive delivering nonzero measurement
bytes with both CRC positions zero still yields FAIL. -/
theorem C8_zero_crc_guard_fails_witness :
    SHT3x_ReadSample { baseHandler with PlatformReceive := some recvZeroCrcF }
        sample0 =
      some (SHT3x_FAIL, sample0,
        [evSend SHT3X_I2C_ADDRESS_A [SHT3X_COMMAND_SINGLESHOT_DISABLE_MSB, 0x00],
         evReceive SHT3X_I2C_ADDRESS_A 6]) :=
  C8_zero_crc_guard_fails _ sample0 sendOkF recvZeroCrcF 0x00
    [0x12, 0x34, 0x00, 0x56, 0x78, 0x00] rfl rfl rfl rfl rfl rfl rfl rfl

/-- Counterexample to claim C9 as stated: `SHT3x_Init` ignores the result of
its internal `SHT3x_SetModeSingleShot` call, so with an adapter whose send
fails exactly on the stop-periodic command (and succeeds on the soft reset)
Init returns OK while the handler's mode is still Periodic and its
repeatability still High - the SingleShot/Low baseline was not forced. -/
theorem C9_counterexample_init_ok_without_baseline :
    (SHT3x_Init
        { baseHandler with Mode := SHT3x_MODE_PERIODIC, PlatformSend := some sendFailStopF }
        0).map (fun r => (r.1, r.2.1.Mode, r.2.1.Repeatability)) =
      some (SHT3x_OK, SHT3x_MODE_PERIODIC, SHT3x_REPEATABILITY_HIGH) := rfl

/-- Claim C9 (amended: additionally the stop-periodic send issued by Init's
internal `SHT3x_SetModeSingleShot` call must succeed, as it does for an
adapter whose send uniformly succeeds): whenever `SHT3x_Init` returns OK the
handler's mode is SingleShot and its repeatability Low, the soft-reset
command 0x30 0xA2 was sent successfully, and the 2 ms delay was issued after
it. -/
theorem C9_init_ok_forces_baseline :
    ∀ (h : SHT3x_Handler) (A : Nat) (res : SHT3x_Result)
      (h' : SHT3x_Handler) (tr : List SHT3x_Event)
      (sendF : Nat → List Nat → Int),
      h.PlatformSend = some sendF →
      sendF (SHT3x_SetAddressI2C h A).2.AddressI2C
        [SHT3X_COMMAND_STOP_PERIODIC_MSB, SHT3X_COMMAND_STOP_PERIODIC_LSB] = 0 →
      SHT3x_Init h A = some (res, h', tr) →
      res = SHT3x_OK →
      h'.Mode = SHT3x_MODE_SINGLESHOT ∧
      h'.Repeatability = SHT3x_REPEATABILITY_LOW ∧
      sendF h'.AddressI2C
        [SHT3X_COMMAND_SOFT_RESET_MSB, SHT3X_COMMAND_SOFT_RESET_LSB] = 0 ∧
      tr = [evSend h'.AddressI2C
              [SHT3X_COMMAND_STOP_PERIODIC_MSB, SHT3X_COMMAND_STOP_PERIODIC_LSB],
            evSend h'.AddressI2C
              [SHT3X_COMMAND_SOFT_RESET_MSB, SHT3X_COMMAND_SOFT_RESET_LSB],
            evDelay 2] := by
  intro h A res h' tr sendF hsend hstop hinit hres
  subst hres
  unfold SHT3x_Init at hinit
  obtain ⟨haddr0, hmode0, hrep0, hsend0, hrecv0, hdly0⟩ :=
    initCRCDefault_preserves (SHT3x_SetAddressI2C h A).2
  obtain ⟨hps, hpr, hpd, hpc, hpi⟩ :=
    setAddress_preserves_platform h A
  by_cases hnull : (SHT3x_SetAddressI2C h A).2.PlatformSend.isNone ∨
      (SHT3x_SetAddressI2C h A).2.PlatformReceive.isNone ∨
      (SHT3x_SetAddressI2C h A).2.PlatformDelay.isNone
  · rw [if_pos hnull] at hinit
    simp only [Option.some.injEq, Prod.mk.injEq] at hinit
    exact absurd hinit.1.symm (by decide)
  · rw [if_neg hnull] at hinit
    push_neg at hnull
    obtain ⟨hn1, hn2, hn3⟩ := hnull
    have hdelay : ∃ delayF, (SHT3x_SetAddressI2C h A).2.PlatformDelay
        = some delayF := by
      rcases hx : (SHT3x_SetAddressI2C h A).2.PlatformDelay with _ | df
      · rw [hx] at hn3; simp at hn3
      · exact ⟨df, rfl⟩
    obtain ⟨delayF, hdf⟩ := hdelay
    have hsend1 : (SHT3x_InitCRCDefault (SHT3x_SetAddressI2C h A).2).PlatformSend
        = some sendF := by rw [hsend0, hps, hsend]
    have hdly1 : (SHT3x_InitCRCDefault (SHT3x_SetAddressI2C h A).2).PlatformDelay
        = some delayF := by rw [hdly0, hdf]
    have hstop1 : sendF
        (SHT3x_InitCRCDefault (SHT3x_SetAddressI2C h A).2).AddressI2C
        [SHT3X_COMMAND_STOP_PERIODIC_MSB, SHT3X_COMMAND_STOP_PERIODIC_LSB] = 0 := by
      rw [haddr0]; exact hstop
    have htail : SHT3x_InitTail (SHT3x_InitCRCDefault (SHT3x_SetAddressI2C h A).2)
        = some (SHT3x_OK, h', tr) := by
      rcases hpi2 : (SHT3x_InitCRCDefault (SHT3x_SetAddressI2C h A).2).PlatformInit
        with _ | st
      · simp only [hpi2] at hinit; exact hinit
      · simp only [hpi2] at hinit
        by_cases hst : st = 0
        · rw [if_neg (by simpa using hst)] at hinit
          exact hinit
        · rw [if_pos hst] at hinit
          simp only [Option.some.injEq, Prod.mk.injEq] at hinit
          exact absurd hinit.1.symm (by decide)
    obtain ⟨hh', hreset, htr⟩ :=
      initTail_ok _ sendF delayF hsend1 hdly1 hstop1 h' tr htail
    subst hh'
    subst htr
    refine ⟨rfl, rfl, ?_, ?_⟩
    · simpa [haddr0] using hreset
    · simp [haddr0]

/-- Witness for C9 (amended): initialising a Periodic/High handler with an
all-succeeding adapter and selector 1 yields address B, SingleShot mode, Low
repeatability, a successful soft reset and the 2 ms delay. -/
theorem C9_init_ok_forces_baseline_witness :
    hC9res.Mode = SHT3x_MODE_SINGLESHOT ∧
    hC9res.Repeatability = SHT3x_REPEATABILITY_LOW ∧
    sendOkF hC9res.AddressI2C
      [SHT3X_COMMAND_SOFT_RESET_MSB, SHT3X_COMMAND_SOFT_RESET_LSB] = 0 ∧
    ([evSend SHT3X_I2C_ADDRESS_B
        [SHT3X_COMMAND_STOP_PERIODIC_MSB, SHT3X_COMMAND_STOP_PERIODIC_LSB],
      evSend SHT3X_I2C_ADDRESS_B
        [SHT3X_COMMAND_SOFT_RESET_MSB, SHT3X_COMMAND_SOFT_RESET_LSB],
      evDelay 2] : List SHT3x_Event) =
      [evSend hC9res.AddressI2C
        [SHT3X_COMMAND_STOP_PERIODIC_MSB, SHT3X_COMMAND_STOP_PERIODIC_LSB],
       evSend hC9res.AddressI2C
        [SHT3X_COMMAND_SOFT_RESET_MSB, SHT3X_COMMAND_SOFT_RESET_LSB],
       evDelay 2] :=
  C9_init_ok_forces_baseline hC9w 1 SHT3x_OK hC9res
    [evSend SHT3X_I2C_ADDRESS_B
      [SHT3X_COMMAND_STOP_PERIODIC_MSB, SHT3X_COMMAND_STOP_PERIODIC_LSB],
     evSend SHT3X_I2C_ADDRESS_B
      [SHT3X_COMMAND_SOFT_RESET_MSB, SHT3X_COMMAND_SOFT_RESET_LSB],
     evDelay 2] sendOkF rfl rfl rfl rfl

/-- Claim C10: calling `SHT3x_ReadSample` on a handle in SingleShot mode
whose stored repeatability is outside the three valid values returns
INVALID_PARAM with an empty capability trace (no send, receive or delay was
invoked) and the caller's sample untouched. -/
theorem C10_readSample_invalid_repeatability :
    ∀ (h : SHT3x_Handler) (s : SHT3x_Sample),
      h.Mode = SHT3x_MODE_SINGLESHOT → 2 < h.Repeatability →
      SHT3x_ReadSample h s = some (SHT3x_INVALID_PARAM, s, []) := by
  intro h s hmode hrep
  have h0 : h.Repeatability ≠ SHT3x_REPEATABILITY_LOW := by
    simp [SHT3x_REPEATABILITY_LOW]; omega
  have h1 : h.Repeatability ≠ SHT3x_REPEATABILITY_MEDIUM := by
    simp [SHT3x_REPEATABILITY_MEDIUM]; omega
  have h2 : h.Repeatability ≠ SHT3x_REPEATABILITY_HIGH := by
    simp [SHT3x_REPEATABILITY_HIGH]; omega
  simp [SHT3x_ReadSample, singleShotDisableLSB, hmode, h0, h1, h2]

/-- Witness for C10: stored repeatability 9 yields INVALID_PARAM with an
empty trace. -/
theorem C10_readSample_invalid_repeatability_witness :
    SHT3x_ReadSample { baseHandler with Repeatability := 9 } sample0 =
      some (SHT3x_INVALID_PARAM, sample0, []) :=
  C10_readSample_invalid_repeatability _ _ rfl (by decide)
